import Mathlib

/-!
Verification of the NHL-SF1 motion-simulator core: the washout motion
algorithm (`src/motion/algorithm.py`, `algorithm_v2.py`, `filters.py`),
the SMC actuator drivers (`src/drivers/smc_driver.py`, `smc_driver_v2.py`)
and the safety module (`src/utils/safety.py`).

Python floats are modelled as exact rationals (`ℚ`) wherever the code only
does field arithmetic and comparisons; the motion algorithm is embedded
generically over a `LinearOrderedField` so that both the rational model and
the real-valued instance (whose filter coefficient involves `π`) are covered
by the same definitions; the trigonometric filter-coefficient computations
of `algorithm.py`/`filters.py` are embedded over `ℝ`.

Hardware field-bus traffic is modelled as a trace of `BusOp` values, one per
pymodbus call, produced by trace-generating embeddings of the driver
methods; the environment (discrete-input poll responses, position readbacks)
is an explicit parameter.
-/

namespace NHLSF1

/-! ## Field-bus operations (pymodbus call trace) -/

/-- One Modbus operation as issued by the drivers: a single-coil write, a
single-register write, a 32-bit (two-word) register write, a discrete-input
read (with the value the controller answered), or a 32-bit register read. -/
inductive BusOp where
  | coilWrite (addr : ℕ) (value : Bool)
  | regWrite (addr : ℕ) (value : ℤ)
  | regWrite32 (addr : ℕ) (value : ℤ)
  | inputRead (addr : ℕ) (value : Bool)
  | regRead32 (addr : ℕ)
  deriving DecidableEq, Repr

/-- Coil addresses (`SMCCoils` in `smc_driver.py`). -/
def COIL_SVON : ℕ := 0x19

def COIL_RESET : ℕ := 0x1B

def COIL_SETUP : ℕ := 0x1C

def COIL_INPUT_INVALID : ℕ := 0x30

/-- Discrete-input addresses (`SMCInputs`). -/
def INPUT_BUSY : ℕ := 0x48

def INPUT_SVRE : ℕ := 0x49

def INPUT_SETON : ℕ := 0x4A

def INPUT_ALARM : ℕ := 0x4F

/-- Holding-register addresses (`SMCRegisters`). -/
def REG_CURRENT_POSITION : ℕ := 0x9000

def REG_OPERATION_START : ℕ := 0x9100

def REG_MOVEMENT_MODE : ℕ := 0x9102

def REG_SPEED : ℕ := 0x9103

def REG_POSITION : ℕ := 0x9104

def REG_ACCELERATION : ℕ := 0x9106

def REG_DECELERATION : ℕ := 0x9107

def REG_PUSHING_FORCE : ℕ := 0x9108

def REG_TRIGGER_LEVEL : ℕ := 0x9109

def REG_PUSHING_SPEED : ℕ := 0x910A

def REG_MOVING_FORCE : ℕ := 0x910B

def REG_AREA_1 : ℕ := 0x910C

def REG_AREA_2 : ℕ := 0x910E

def REG_IN_POSITION : ℕ := 0x9110

/-- Python `int(q)`: truncation toward zero. -/
def pyInt (q : ℚ) : ℤ := if q < 0 then ⌈q⌉ else ⌊q⌋

/-- `_wait_for_input` / the bounded poll loops: read the discrete input once
per pending response until it equals `expected` (success) or the responses
run out (timeout).  Returns the trace of reads and the success flag. -/
def waitForInput (addr : ℕ) (expected : Bool) : List Bool → List BusOp × Bool
  | [] => ([], false)
  | v :: rest =>
      if v = expected then ([BusOp.inputRead addr v], true)
      else
        let r := waitForInput addr expected rest
        (BusOp.inputRead addr v :: r.1, r.2)

/-! ## Safety module (`src/utils/safety.py`, class `SafetyModule`) -/

/-- `SafetyState` enum of `safety.py`. -/
inductive SafetyStateE where
  | NORMAL
  | WARNING
  | EMERGENCY_STOP
  deriving DecidableEq, Repr

/-- Mutable fields of a `SafetyModule` instance (`__init__`): the e-stop
latch, the optional trigger timestamp and the warning counter. -/
structure SafetySt where
  estopped : Bool
  estopTime : Option ℚ
  warningCount : ℕ
  deriving DecidableEq, Repr

/-- A freshly constructed `SafetyModule`. -/
def initSafety : SafetySt := ⟨false, none, 0⟩

/-- `SafetyModule.SMC_MIN_MM`. -/
def SMC_MIN_MM : ℚ := 5

/-- `SafetyModule.SMC_MAX_MM`. -/
def SMC_MAX_MM : ℚ := 895

/-- `SafetyModule.SMC_CENTER_MM`. -/
def SMC_CENTER_MM : ℚ := 450

/-- `SafetyModule.SMC_MAX_SPEED_MM_S`. -/
def SMC_MAX_SPEED_MM_S : ℚ := 500

/-- `SafetyModule.ESTOP_TIMEOUT_S`. -/
def ESTOP_TIMEOUT_S : ℚ := 2

/-- `SafetyModule.clamp_smc_position`: clamp to `[5, 895]` mm, incrementing
the warning counter when the if/elif branches fire. -/
def clamp_smc_position (s : SafetySt) (x : ℚ) : ℚ × SafetySt :=
  if x < SMC_MIN_MM then
    (SMC_MIN_MM, { s with warningCount := s.warningCount + 1 })
  else if SMC_MAX_MM < x then
    (SMC_MAX_MM, { s with warningCount := s.warningCount + 1 })
  else
    (x, s)

/-- `SafetyModule.trigger_estop` called at wall-clock time `t`: latch the
e-stop and record the timestamp (callbacks have no effect on this state). -/
def trigger_estop (s : SafetySt) (t : ℚ) : SafetySt :=
  { s with estopped := true, estopTime := some t }

/-- `SafetyModule.reset_estop` called at wall-clock time `now`.  Mirrors the
Python control flow including the truthiness test `if self._estop_time:`,
which treats a recorded timestamp of exactly `0.0` like `None`. -/
def reset_estop (s : SafetySt) (now : ℚ) : Bool × SafetySt :=
  match s.estopTime with
  | some t =>
      if t ≠ 0 ∧ now - t < ESTOP_TIMEOUT_S then (false, s)
      else (true, { s with estopped := false, estopTime := none })
  | none => (true, { s with estopped := false, estopTime := none })

/-- `SafetyModule.limit_speed`: hold the current position on a nonpositive
time delta, otherwise cap the commanded change to `500 mm/s * dt`. -/
def limit_speed (s : SafetySt) (current target dt : ℚ) : ℚ × SafetySt :=
  if dt ≤ 0 then (current, s)
  else
    let maxChange := SMC_MAX_SPEED_MM_S * dt
    let actualChange := target - current
    if maxChange < |actualChange| then
      let direction : ℚ := if 0 < actualChange then 1 else -1
      (current + direction * maxChange,
        { s with warningCount := s.warningCount + 1 })
    else (target, s)

/-- The `state` derived property of `SafetyModule`. -/
def stateOf (s : SafetySt) : SafetyStateE :=
  if s.estopped then SafetyStateE.EMERGENCY_STOP
  else if 0 < s.warningCount then SafetyStateE.WARNING
  else SafetyStateE.NORMAL

/-- The `check_safety_before_command` decorator: when the global e-stop is
active the wrapped call is suppressed and `None` is returned, otherwise the
wrapped function's result is passed through. -/
def check_safety_before_command {α : Type} (estopActive : Bool) (r : α) :
    Option α :=
  if estopActive then none else some r

/-! ## SMC driver v1 (`src/drivers/smc_driver.py`) -/

/-- The fields of `SMCConfig` relevant to the modelled behaviour. -/
structure SMCCfg where
  strokeMm : ℚ
  centerMm : ℚ
  softLimitMm : ℚ
  defaultSpeed : ℤ
  defaultAccel : ℤ
  defaultDecel : ℤ
  commandRateHz : ℚ
  deriving DecidableEq, Repr

/-- `SMCConfig.min_position_mm` property. -/
def SMCCfg.minPositionMm (c : SMCCfg) : ℚ := c.softLimitMm

/-- `SMCConfig.max_position_mm` property. -/
def SMCCfg.maxPositionMm (c : SMCCfg) : ℚ := c.strokeMm - c.softLimitMm

/-- The default `SMCConfig`. -/
def smcDefaultCfg : SMCCfg :=
  { strokeMm := 900, centerMm := 450, softLimitMm := 5,
    defaultSpeed := 500, defaultAccel := 3000, defaultDecel := 3000,
    commandRateHz := 30 }

/-- The register-write block shared by `_send_position_command` and
`_move_to_position`: movement mode, speed, target position, the motion
profile, the area/in-position words, then the operation-start trigger. -/
def smcMoveOps (c : SMCCfg) (x : ℚ) (speed : ℤ) : List BusOp :=
  [ BusOp.regWrite REG_MOVEMENT_MODE 1,
    BusOp.regWrite REG_SPEED speed,
    BusOp.regWrite32 REG_POSITION (pyInt (x * 100)),
    BusOp.regWrite REG_ACCELERATION c.defaultAccel,
    BusOp.regWrite REG_DECELERATION c.defaultDecel,
    BusOp.regWrite REG_PUSHING_FORCE 0,
    BusOp.regWrite REG_TRIGGER_LEVEL 0,
    BusOp.regWrite REG_PUSHING_SPEED 20,
    BusOp.regWrite REG_MOVING_FORCE 100,
    BusOp.regWrite32 REG_AREA_1 0,
    BusOp.regWrite32 REG_AREA_2 0,
    BusOp.regWrite32 REG_IN_POSITION 100,
    BusOp.regWrite REG_OPERATION_START 0x0100 ]

/-- `SMCDriver._send_position_command`: the run-loop write issued by
`send_position`, which re-sends the whole step-data block at the default
speed ("Write ALL step data registers" in the source). -/
def smcSendPositionCommandOps (c : SMCCfg) (x : ℚ) : List BusOp :=
  smcMoveOps c x c.defaultSpeed

/-- Controller responses consumed by one `SMCDriver.initialize` run: the
alarm-input readback, the three poll-response streams and the center-move
position readbacks (`pos1` decides the retry). -/
structure SMCInitEnv where
  alarmOk : Bool
  svre : List Bool
  seton : List Bool
  busy1 : List Bool
  busy2 : List Bool
  pos1 : ℚ
  deriving DecidableEq, Repr

/-- The alarm-reset pulse `_reset_alarm`. -/
def resetPulseOps : List BusOp :=
  [BusOp.coilWrite COIL_RESET true, BusOp.coilWrite COIL_RESET false]

/-- Step 5 of `initialize`: full-parameter move to center (speed 300) with
completion wait, position readback and a single retry when the readback is
more than 10 mm from center. -/
def smcCenterMoveOps (c : SMCCfg) (env : SMCInitEnv) : List BusOp :=
  smcMoveOps c c.centerMm 300 ++ (waitForInput INPUT_BUSY false env.busy1).1
    ++ [BusOp.regRead32 REG_CURRENT_POSITION]
    ++ (if 10 < |env.pos1 - c.centerMm| then
          smcMoveOps c c.centerMm 300 ++ (waitForInput INPUT_BUSY false env.busy2).1
            ++ [BusOp.regRead32 REG_CURRENT_POSITION]
        else [])

/-- `SMCDriver.initialize(home_first)` as a bus trace plus success flag:
serial mode, conditional alarm reset, servo on, servo-ready poll, optional
homing (SETUP coil, SETON poll, SETUP clear, position readback), then the
center move. -/
def smcInitTrace (c : SMCCfg) (env : SMCInitEnv) (homeFirst : Bool) :
    List BusOp × Bool :=
  let serialOps := [BusOp.coilWrite COIL_INPUT_INVALID true]
  let alarmOps := BusOp.inputRead INPUT_ALARM env.alarmOk ::
    (if env.alarmOk then [] else resetPulseOps)
  let svonOps := [BusOp.coilWrite COIL_SVON true]
  let svreRes := waitForInput INPUT_SVRE true env.svre
  let pre := serialOps ++ alarmOps ++ svonOps ++ svreRes.1
  if !svreRes.2 then (pre, false)
  else if homeFirst then
    let setonRes := waitForInput INPUT_SETON true env.seton
    let pre2 := pre ++ [BusOp.coilWrite COIL_SETUP true] ++ setonRes.1
    if !setonRes.2 then (pre2, false)
    else
      (pre2 ++ [BusOp.coilWrite COIL_SETUP false]
        ++ [BusOp.regRead32 REG_CURRENT_POSITION]
        ++ smcCenterMoveOps c env, true)
  else (pre ++ smcCenterMoveOps c env, true)

/-- Command-throttle state of an `SMCDriver` (`_connected`,
`_last_command_time`, `_last_position`, the sent/skipped counters). -/
structure SMCRunState where
  connected : Bool
  lastCommandTime : ℚ
  lastPosition : ℚ
  sent : ℕ
  skipped : ℕ
  deriving DecidableEq, Repr

/-- The driver state right after `__init__` and a successful
connect/initialize, at wall-clock origin. -/
def smcReadyState (c : SMCCfg) : SMCRunState :=
  { connected := true, lastCommandTime := 0, lastPosition := c.centerMm,
    sent := 0, skipped := 0 }

/-- The `max(min, min(max, x))` clamp used inside `send_position`. -/
def smcClamp (c : SMCCfg) (x : ℚ) : ℚ :=
  max c.minPositionMm (min c.maxPositionMm x)

/-- `SMCDriver.send_position(x)` at wall-clock time `now`: returns the
Python result, the new driver state and the bus operations transmitted.
Rate limiting, then clamping, then the 0.5 mm change threshold; a
suppressed call transmits nothing and still returns `True`. -/
def send_position (c : SMCCfg) (s : SMCRunState) (now x : ℚ) :
    Bool × SMCRunState × List BusOp :=
  if !s.connected then (false, s, [])
  else if now - s.lastCommandTime < 1 / c.commandRateHz then
    (true, { s with skipped := s.skipped + 1 }, [])
  else
    let xc := smcClamp c x
    if |xc - s.lastPosition| < 1 / 2 then
      (true, { s with skipped := s.skipped + 1 }, [])
    else
      (true,
        { s with lastCommandTime := now, lastPosition := xc,
                 sent := s.sent + 1 },
        smcSendPositionCommandOps c xc)

/-! ## SMC driver v2 (`src/drivers/smc_driver_v2.py`) -/

/-- `DriverConfig` of the v2 driver. -/
structure SMCv2Cfg where
  centerMm : ℚ
  minMm : ℚ
  maxMm : ℚ
  speed : ℤ
  acceleration : ℤ
  deriving DecidableEq, Repr

/-- Default v2 `DriverConfig`. -/
def smcV2DefaultCfg : SMCv2Cfg :=
  { centerMm := 350, minMm := 50, maxMm := 850, speed := 1000,
    acceleration := 3000 }

/-- `SMCDriverV2._setup_motion_parameters`: the one-time motion-profile
write block. -/
def smcV2SetupParamsOps (c : SMCv2Cfg) : List BusOp :=
  [ BusOp.regWrite REG_MOVEMENT_MODE 1,
    BusOp.regWrite REG_SPEED c.speed,
    BusOp.regWrite REG_ACCELERATION c.acceleration,
    BusOp.regWrite REG_DECELERATION c.acceleration,
    BusOp.regWrite REG_PUSHING_FORCE 0,
    BusOp.regWrite REG_TRIGGER_LEVEL 0,
    BusOp.regWrite REG_PUSHING_SPEED 20,
    BusOp.regWrite REG_MOVING_FORCE 100,
    BusOp.regWrite32 REG_AREA_1 0,
    BusOp.regWrite32 REG_AREA_2 0,
    BusOp.regWrite32 REG_IN_POSITION 100 ]

/-- `SMCDriverV2._move_to_fast`: position register and start trigger only. -/
def smcV2MoveToFastOps (x : ℚ) : List BusOp :=
  [ BusOp.regWrite32 REG_POSITION (pyInt (x * 100)),
    BusOp.regWrite REG_OPERATION_START 0x0100 ]

/-- `SMCDriverV2._move_to_full`: the complete step-data write. -/
def smcV2MoveToFullOps (c : SMCv2Cfg) (x : ℚ) : List BusOp :=
  [ BusOp.regWrite REG_MOVEMENT_MODE 1,
    BusOp.regWrite REG_SPEED c.speed,
    BusOp.regWrite32 REG_POSITION (pyInt (x * 100)),
    BusOp.regWrite REG_ACCELERATION c.acceleration,
    BusOp.regWrite REG_DECELERATION c.acceleration,
    BusOp.regWrite REG_PUSHING_FORCE 0,
    BusOp.regWrite REG_TRIGGER_LEVEL 0,
    BusOp.regWrite REG_PUSHING_SPEED 20,
    BusOp.regWrite REG_MOVING_FORCE 100,
    BusOp.regWrite32 REG_AREA_1 0,
    BusOp.regWrite32 REG_AREA_2 0,
    BusOp.regWrite32 REG_IN_POSITION 100,
    BusOp.regWrite REG_OPERATION_START 0x0100 ]

/-- Controller responses consumed by one `SMCDriverV2.connect` run. -/
structure SMCv2Env where
  svre : List Bool
  seton : List Bool
  busy : List Bool
  deriving DecidableEq, Repr

/-- `SMCDriverV2.connect` as a bus trace plus success flag: serial mode,
alarm-reset pulse, servo on, servo-ready poll; homing (SETUP coil, SETON
poll, SETUP clear), a second alarm-reset pulse, the one-time motion
parameters, the full-parameter center move with completion wait, and the
final position readback. -/
def smcV2ConnectTrace (c : SMCv2Cfg) (env : SMCv2Env) : List BusOp × Bool :=
  let pre := [BusOp.coilWrite COIL_INPUT_INVALID true] ++ resetPulseOps
    ++ [BusOp.coilWrite COIL_SVON true]
  let svreRes := waitForInput INPUT_SVRE true env.svre
  let pre2 := pre ++ svreRes.1
  if !svreRes.2 then (pre2, false)
  else
    let setonRes := waitForInput INPUT_SETON true env.seton
    let pre3 := pre2 ++ [BusOp.coilWrite COIL_SETUP true] ++ setonRes.1
    if !setonRes.2 then (pre3, false)
    else
      (pre3 ++ [BusOp.coilWrite COIL_SETUP false] ++ resetPulseOps
        ++ smcV2SetupParamsOps c
        ++ smcV2MoveToFullOps c c.centerMm
        ++ (waitForInput INPUT_BUSY false env.busy).1
        ++ [BusOp.regRead32 REG_CURRENT_POSITION], true)

/-- Does this bus operation write one of the motion-profile registers
(movement mode, speed, acceleration, deceleration, the push-force
parameters, the in-position tolerance)? -/
def isProfileWrite : BusOp → Bool
  | BusOp.regWrite a _ =>
      a == REG_MOVEMENT_MODE || a == REG_SPEED || a == REG_ACCELERATION
        || a == REG_DECELERATION || a == REG_PUSHING_FORCE
        || a == REG_TRIGGER_LEVEL || a == REG_PUSHING_SPEED
        || a == REG_MOVING_FORCE
  | BusOp.regWrite32 a _ => a == REG_IN_POSITION
  | _ => false

/-! ## Motion algorithm (`src/motion/algorithm.py`)

Embedded generically over a `LinearOrderedField K`.  The real-valued
instance used by the program (whose filter coefficient is computed from
`math.pi`) is `K = ℝ` with `mkHPFilter`. -/

section Motion

variable {K : Type} [LinearOrderedField K]

/-- `MotionDimension` enum. -/
inductive MotionDim where
  | SURGE
  | SWAY
  | HEAVE
  | PITCH
  | ROLL
  deriving DecidableEq, Repr

/-- A telemetry frame as consumed by the motion algorithms. -/
structure Telemetry (K : Type) where
  gLat : K
  gLong : K
  gVert : K
  yaw : K
  pitch : K
  roll : K
  deriving DecidableEq, Repr

/-- `MotionConfig` of `algorithm.py`. -/
structure MotionCfg (K : Type) where
  dimension : MotionDim
  highpassCutoffHz : K
  gain : K
  deadband : K
  slewRateLimit : K
  strokeMm : K
  centerMm : K
  softLimitMm : K
  updateRateHz : K
  deriving DecidableEq, Repr

/-- `MotionConfig.min_position_mm` property. -/
def MotionCfg.minPositionMm (c : MotionCfg K) : K := c.softLimitMm

/-- `MotionConfig.max_position_mm` property. -/
def MotionCfg.maxPositionMm (c : MotionCfg K) : K := c.strokeMm - c.softLimitMm

/-- State of the first-order `HighPassFilter` of `algorithm.py`: the
coefficient `_alpha` (a stored field, computed once in `__post_init__`)
and the one-sample input/output memory. -/
structure HPFilter (K : Type) where
  alpha : K
  prevInput : K
  prevOutput : K
  deriving DecidableEq, Repr

/-- `HighPassFilter.update`: `y = alpha * (prev_output + x - prev_input)`,
then store `x` and `y`. -/
def HPFilter.update (f : HPFilter K) (x : K) : K × HPFilter K :=
  let y := f.alpha * (f.prevOutput + x - f.prevInput)
  (y, { f with prevInput := x, prevOutput := y })

/-- Run the filter over a whole input sequence, collecting the outputs. -/
def runHPFilter (f : HPFilter K) : List K → List K × HPFilter K
  | [] => ([], f)
  | x :: xs =>
      let r := f.update x
      let rest := runHPFilter r.2 xs
      (r.1 :: rest.1, rest.2)

/-- Mutable state of a `MotionAlgorithm` instance. -/
structure MotionState (K : Type) where
  filter : HPFilter K
  currentPosition : K
  lastInput : K
  samplesProcessed : ℕ
  deriving DecidableEq, Repr

/-- `MotionAlgorithm._extract_input`. -/
def extract_input (c : MotionCfg K) (t : Telemetry K) : K :=
  match c.dimension with
  | MotionDim.SURGE => -t.gLong
  | MotionDim.SWAY => t.gLat
  | MotionDim.HEAVE => t.gVert - 1
  | MotionDim.PITCH => t.pitch
  | MotionDim.ROLL => t.roll

/-- `math.copysign(m, c)`: the magnitude of `m` with the sign of `c`
(`c = 0` gives `+|m|`, matching a positive floating-point zero). -/
def copysign (m c : K) : K := if c < 0 then -|m| else |m|

/-- `MotionAlgorithm._apply_slew_rate`. -/
def apply_slew_rate (c : MotionCfg K) (cur target : K) : K :=
  let dt := 1 / c.updateRateHz
  let maxChange := c.slewRateLimit * dt
  let change := target - cur
  let change2 := if maxChange < |change| then copysign maxChange change else change
  cur + change2

/-- `MotionAlgorithm._clamp_position`. -/
def clamp_position (c : MotionCfg K) (x : K) : K :=
  max c.minPositionMm (min c.maxPositionMm x)

/-- `MotionAlgorithm.calculate`: extract, deadband (holding the previously
held input when the change is below the threshold), washout filter, gain
and center offset, slew limit, soft clamp, state commit. -/
def calculate (c : MotionCfg K) (s : MotionState K) (t : Telemetry K) :
    K × MotionState K :=
  let raw := extract_input c t
  let raw2 := if |raw - s.lastInput| < c.deadband then s.lastInput else raw
  let fr := s.filter.update raw2
  let offsetMm := fr.1 * c.gain
  let targetMm := c.centerMm + offsetMm
  let target2 := apply_slew_rate c s.currentPosition targetMm
  let target3 := clamp_position c target2
  (target3,
    { filter := fr.2, currentPosition := target3, lastInput := raw2,
      samplesProcessed := s.samplesProcessed + 1 })

/-- Feed a telemetry sequence through `calculate`, collecting the returned
positions. -/
def runCalculate (c : MotionCfg K) (s : MotionState K) :
    List (Telemetry K) → List K × MotionState K
  | [] => ([], s)
  | t :: ts =>
      let r := calculate c s t
      let rest := runCalculate c r.2 ts
      (r.1 :: rest.1, rest.2)

/-! ### Motion algorithm v2 (`src/motion/algorithm_v2.py`) -/

/-- Dimension strings accepted by `MotionAlgorithmV2` (any other string
falls back to the longitudinal channel, like `surge`). -/
inductive DimV2 where
  | surge
  | sway
  | heave
  deriving DecidableEq, Repr

/-- `AlgorithmConfig` of `algorithm_v2.py`. -/
structure AlgoV2Cfg (K : Type) where
  dimension : DimV2
  scale : K
  smoothing : K
  threshold : K
  centerMm : K
  minMm : K
  maxMm : K
  deriving DecidableEq, Repr

/-- Mutable state of `MotionAlgorithmV2` (`smoothed_g`, `last_g_force`). -/
structure AlgoV2State (K : Type) where
  smoothedG : K
  lastGForce : K
  deriving DecidableEq, Repr

/-- `MotionAlgorithmV2._get_dimension_value`. -/
def v2_get_dimension_value (c : AlgoV2Cfg K) (t : Telemetry K) : K :=
  match c.dimension with
  | DimV2.surge => t.gLong
  | DimV2.sway => t.gLat
  | DimV2.heave => t.gVert - 1

/-- `MotionAlgorithmV2.calculate`: change-based threshold holding the last
g-force, exponential smoothing, scale from center, clamp. -/
def v2_calculate (c : AlgoV2Cfg K) (s : AlgoV2State K) (t : Telemetry K) :
    K × AlgoV2State K :=
  let g := v2_get_dimension_value c t
  let g2 := if |g - s.lastGForce| < c.threshold then s.lastGForce else g
  let last2 := if |g - s.lastGForce| < c.threshold then s.lastGForce else g
  let sm := c.smoothing * s.smoothedG + (1 - c.smoothing) * g2
  let pos := c.centerMm - sm * c.scale
  (max c.minMm (min c.maxMm pos), { smoothedG := sm, lastGForce := last2 })

end Motion

/-! ### Real-valued filter constructors (`algorithm.py` `__post_init__`,
`filters.py` `HighPassFilter.__init__`) -/

/-- `HighPassFilter.__post_init__` of `algorithm.py`:
`dt = 1/rate`, `tau = 1/(2*pi*cutoff)`, `alpha = tau/(tau+dt)`. -/
noncomputable def hpAlpha (cutoffHz sampleRateHz : ℝ) : ℝ :=
  let dt := 1 / sampleRateHz
  let tau := 1 / (2 * Real.pi * cutoffHz)
  tau / (tau + dt)

/-- The first-order washout filter as constructed by `MotionAlgorithm` for
given cutoff and sample rate, with zeroed memory. -/
noncomputable def mkHPFilter (cutoffHz sampleRateHz : ℝ) : HPFilter ℝ :=
  ⟨hpAlpha cutoffHz sampleRateHz, 0, 0⟩

/-- Default `MotionConfig` of `algorithm.py` over `ℝ`. -/
noncomputable def motionDefaultCfg : MotionCfg ℝ :=
  { dimension := MotionDim.SURGE, highpassCutoffHz := 1, gain := 100,
    deadband := 5 / 100, slewRateLimit := 500, strokeMm := 900,
    centerMm := 450, softLimitMm := 50, updateRateHz := 30 }

/-- A freshly constructed `MotionAlgorithm` with the default config:
filter built from cutoff 1 Hz at 30 Hz, position at center, zero held
input. -/
noncomputable def motionInitState : MotionState ℝ :=
  { filter := mkHPFilter 1 30, currentPosition := 450, lastInput := 0,
    samplesProcessed := 0 }

/-- State of the 2nd-order Butterworth biquad of `filters.py`. -/
structure Biquad (K : Type) where
  b0 : K
  b1 : K
  b2 : K
  a1 : K
  a2 : K
  x1 : K
  x2 : K
  y1 : K
  y2 : K
  deriving DecidableEq, Repr

/-- `HighPassFilter.process` of `filters.py` (direct form I step). -/
def Biquad.process {K : Type} [LinearOrderedField K] (f : Biquad K) (x : K) :
    K × Biquad K :=
  let y := f.b0 * x + f.b1 * f.x1 + f.b2 * f.x2 - f.a1 * f.y1 - f.a2 * f.y2
  (y, { f with x2 := f.x1, x1 := x, y2 := f.y1, y1 := y })

/-- `HighPassFilter.__init__` of `filters.py`: the standard-form Butterworth
high-pass biquad with Q = 0.707, zero initial memory. -/
noncomputable def mkButterworthHP (cutoffHz sampleRate : ℝ) : Biquad ℝ :=
  let omega := 2 * Real.pi * cutoffHz / sampleRate
  let alpha := Real.sin omega / (2 * (707 / 1000))
  let cosOmega := Real.cos omega
  let a0 := 1 + alpha
  { b0 := ((1 + cosOmega) / 2) / a0,
    b1 := (-(1 + cosOmega)) / a0,
    b2 := ((1 + cosOmega) / 2) / a0,
    a1 := (-2 * cosOmega) / a0,
    a2 := (1 - alpha) / a0,
    x1 := 0, x2 := 0, y1 := 0, y2 := 0 }

/-- The first-order washout recurrence exactly as documented in the source
(`y[n] = alpha * (y[n-1] + x[n] - x[n-1])`), written as a direct recursion
on the input sequence from given one-sample memories. -/
def foWashoutOutputs {K : Type} [LinearOrderedField K] (alpha : K) :
    K → K → List K → List K
  | _, _, [] => []
  | xprev, yprev, x :: xs =>
      let y := alpha * (yprev + x - xprev)
      y :: foWashoutOutputs alpha x y xs

/-! ## Shared helper lemmas -/

/-- Clamping onto an interval that contains `p` moves a point no further
from `p` than it already was (the `max m (min M x)` form used by both the
driver clamp and the motion soft clamp). -/
theorem abs_clamp_sub_le {K : Type} [LinearOrderedField K] (m M x p : K)
    (hm : m ≤ p) (hM : p ≤ M) : |max m (min M x) - p| ≤ |x - p| := by
  rcases le_total x m with hxm | hmx
  · have h1 : min M x = x := min_eq_right (le_trans hxm (le_trans hm hM))
    have h2 : max m x = m := max_eq_left hxm
    rw [h1, h2, abs_of_nonpos (by linarith), abs_of_nonpos (by linarith)]
    linarith
  · rcases le_total x M with hxM | hMx
    · have h1 : min M x = x := min_eq_right hxM
      rw [h1, max_eq_right (le_trans hmx (le_refl x))]
    · have h1 : min M x = M := min_eq_left hMx
      have h2 : max m M = M := max_eq_right (le_trans hm hM)
      rw [h1, h2, abs_of_nonneg (by linarith), abs_of_nonneg (by linarith)]
      linarith

/-- A successful `waitForInput` poll is a run of reads of the opposite
value followed by one read of the expected value. -/
theorem waitForInput_ok (a : ℕ) (e : Bool) (l : List Bool)
    (h : (waitForInput a e l).2 = true) :
    ∃ mids, (waitForInput a e l).1 = mids ++ [BusOp.inputRead a e] ∧
      ∀ op ∈ mids, op = BusOp.inputRead a (!e) := by
  induction l with
  | nil => simp [waitForInput] at h
  | cons v rest ih =>
      by_cases hv : v = e
      · subst hv
        refine ⟨[], ?_, by simp⟩
        simp [waitForInput]
      · have hrec : (waitForInput a e rest).2 = true := by
          simpa [waitForInput, hv] using h
        obtain ⟨mids, hm, hall⟩ := ih hrec
        refine ⟨BusOp.inputRead a v :: mids, ?_, ?_⟩
        · simp [waitForInput, hv, hm]
        · intro op hop
          rcases List.mem_cons.1 hop with h1 | h1
          · subst h1
            have : v = !e := by
              cases v <;> cases e <;> simp_all
            rw [this]
          · exact hall op h1

/-! ## Claim theorems: safety module -/

/-- Claim C3: `clamp_smc_position` always lands in `[5, 895]`; an in-range
input is returned exactly with the warning counter untouched; an
out-of-range input is replaced by the violated (nearer) bound and the
warning counter grows by exactly one. -/
theorem clamp_smc_position_spec (s : SafetySt) (x : ℚ) :
    (SMC_MIN_MM ≤ (clamp_smc_position s x).1 ∧
      (clamp_smc_position s x).1 ≤ SMC_MAX_MM) ∧
    (SMC_MIN_MM ≤ x → x ≤ SMC_MAX_MM → clamp_smc_position s x = (x, s)) ∧
    (x < SMC_MIN_MM → clamp_smc_position s x =
      (SMC_MIN_MM, { s with warningCount := s.warningCount + 1 })) ∧
    (SMC_MAX_MM < x → clamp_smc_position s x =
      (SMC_MAX_MM, { s with warningCount := s.warningCount + 1 })) := by
  unfold clamp_smc_position
  unfold SMC_MIN_MM SMC_MAX_MM
  split_ifs with h1 h2
  · exact ⟨⟨le_refl _, by norm_num⟩, fun h _ => by linarith,
      fun _ => rfl, fun h => by linarith⟩
  · exact ⟨⟨by norm_num, le_refl _⟩, fun _ h => by linarith,
      fun h => by linarith, fun _ => rfl⟩
  · exact ⟨⟨not_lt.1 h1, not_lt.1 h2⟩, fun _ _ => rfl,
      fun h => by linarith [not_lt.1 h1], fun h => by linarith [not_lt.1 h2]⟩

/-- Witness for C3 at the out-of-range input 900 mm. -/
theorem clamp_smc_position_spec_witness :
    SMC_MAX_MM < (900 : ℚ) ∧ clamp_smc_position initSafety 900 =
      (SMC_MAX_MM, { initSafety with warningCount := 1 }) :=
  ⟨by norm_num [SMC_MAX_MM],
    (clamp_smc_position_spec initSafety 900).2.2.2 (by norm_num [SMC_MAX_MM])⟩

/-- Claim C10: with a zero or negative time delta, `limit_speed` returns
the current position unchanged and does not touch the safety state (in
particular the warning counter), before any division by `dt` is reached. -/
theorem limit_speed_nonpositive_dt (s : SafetySt) (current target dt : ℚ)
    (h : dt ≤ 0) : limit_speed s current target dt = (current, s) := by
  unfold limit_speed
  rw [if_pos h]

/-- Witness for C10 at `dt = 0` with a far-away target. -/
theorem limit_speed_nonpositive_dt_witness :
    (0 : ℚ) ≤ 0 ∧ limit_speed initSafety 450 800 0 = (450, initSafety) :=
  ⟨le_refl 0, limit_speed_nonpositive_dt initSafety 450 800 0 (le_refl 0)⟩

/-- Counterexample to claim C2: in the EmergencyStopped state,
`clamp_smc_position` still returns the (clamped) requested position, not
the home/center position 450 mm. -/
theorem estopped_clamp_not_center :
    stateOf (trigger_estop initSafety 5) = SafetyStateE.EMERGENCY_STOP ∧
    (clamp_smc_position (trigger_estop initSafety 5) 100).1 = 100 ∧
    (100 : ℚ) ≠ SMC_CENTER_MM := by decide

/-- Claim C2 as amended: while EmergencyStopped, `clamp_smc_position`
behaves exactly as in the normal state (the ordinary range clamp, not the
center position); e-stop enforcement instead blocks commands wholesale:
the `check_safety_before_command` wrapper returns `None` while the e-stop
is active. -/
theorem estopped_clamp_behavior (s : SafetySt) (x r : ℚ)
    (h : s.estopped = true) :
    stateOf s = SafetyStateE.EMERGENCY_STOP ∧
    (clamp_smc_position s x).1 = max SMC_MIN_MM (min SMC_MAX_MM x) ∧
    check_safety_before_command true r = none := by
  refine ⟨by simp [stateOf, h], ?_, rfl⟩
  unfold clamp_smc_position
  unfold SMC_MIN_MM SMC_MAX_MM
  split_ifs with h1 h2
  · rw [min_eq_right (by linarith), max_eq_left (by linarith)]
  · rw [min_eq_left (by linarith), max_eq_right (by norm_num)]
  · rw [min_eq_right (not_lt.1 h2), max_eq_right (not_lt.1 h1)]

/-- Witness for the amended C2 on a live e-stopped state. -/
theorem estopped_clamp_behavior_witness :
    (trigger_estop initSafety 5).estopped = true ∧
    (stateOf (trigger_estop initSafety 5) = SafetyStateE.EMERGENCY_STOP ∧
      (clamp_smc_position (trigger_estop initSafety 5) 100).1 =
        max SMC_MIN_MM (min SMC_MAX_MM 100) ∧
      check_safety_before_command true (7 : ℚ) = none) :=
  ⟨rfl, estopped_clamp_behavior (trigger_estop initSafety 5) 100 7 rfl⟩

/-- Counterexample to claim C4: a trigger recorded at wall-clock time 0 is
falsy in Python (`if self._estop_time:`), so `reset_estop` one second later
clears the latch and returns `True` even though the 2-second timeout has
not elapsed. -/
theorem reset_estop_zero_time_counterexample :
    (1 : ℚ) - 0 < ESTOP_TIMEOUT_S ∧
    reset_estop (trigger_estop initSafety 0) 1 =
      (true, { estopped := false, estopTime := none, warningCount := 0 }) := by
  refine ⟨by norm_num [ESTOP_TIMEOUT_S], ?_⟩
  norm_num [reset_estop, trigger_estop, initSafety]

/-- Claim C4 as amended: provided the recorded trigger timestamp `t` is
nonzero, `reset_estop` before the timeout returns `False` and leaves the
latched state untouched, and at or after the timeout returns `True` and
clears the latch (the derived state returning to Normal when no warnings
are latched). -/
theorem reset_estop_timeout_spec (s : SafetySt) (t now : ℚ) (ht : t ≠ 0) :
    (now - t < ESTOP_TIMEOUT_S →
      reset_estop (trigger_estop s t) now = (false, trigger_estop s t) ∧
      stateOf (trigger_estop s t) = SafetyStateE.EMERGENCY_STOP) ∧
    (ESTOP_TIMEOUT_S ≤ now - t →
      (reset_estop (trigger_estop s t) now).1 = true ∧
      (reset_estop (trigger_estop s t) now).2.estopped = false ∧
      (s.warningCount = 0 →
        stateOf (reset_estop (trigger_estop s t) now).2 =
          SafetyStateE.NORMAL)) := by
  constructor
  · intro h
    refine ⟨?_, by simp [stateOf, trigger_estop]⟩
    simp [reset_estop, trigger_estop, ht, h]
  · intro h
    have hcond : ¬(t ≠ 0 ∧ now - t < ESTOP_TIMEOUT_S) := by
      rintro ⟨-, h2⟩
      linarith
    refine ⟨?_, ?_, ?_⟩
    · simp [reset_estop, trigger_estop, hcond]
    · simp [reset_estop, trigger_estop, hcond]
    · intro hw
      simp [reset_estop, trigger_estop, hcond, stateOf, hw]

/-- Witness for the amended C4: trigger at `t = 5`, reset attempts at 6
(too early) and the conclusion instantiated there. -/
theorem reset_estop_timeout_spec_witness :
    (5 : ℚ) ≠ 0 ∧
    ((6 : ℚ) - 5 < ESTOP_TIMEOUT_S →
      reset_estop (trigger_estop initSafety 5) 6 =
        (false, trigger_estop initSafety 5) ∧
      stateOf (trigger_estop initSafety 5) = SafetyStateE.EMERGENCY_STOP) ∧
    (ESTOP_TIMEOUT_S ≤ (6 : ℚ) - 5 →
      (reset_estop (trigger_estop initSafety 5) 6).1 = true ∧
      (reset_estop (trigger_estop initSafety 5) 6).2.estopped = false ∧
      (initSafety.warningCount = 0 →
        stateOf (reset_estop (trigger_estop initSafety 5) 6).2 =
          SafetyStateE.NORMAL)) :=
  ⟨by norm_num, reset_estop_timeout_spec initSafety 5 6 (by norm_num)⟩

/-! ## Claim theorems: SMC drivers -/

/-- Branch evaluation: a call inside the rate-limit window is counted as
skipped and transmits nothing. -/
theorem send_position_rate_limited (c : SMCCfg) (s : SMCRunState) (now x : ℚ)
    (hconn : s.connected = true)
    (hrl : now - s.lastCommandTime < 1 / c.commandRateHz) :
    send_position c s now x = (true, { s with skipped := s.skipped + 1 }, []) := by
  simp only [send_position, hconn, Bool.not_true]
  rw [if_neg Bool.false_ne_true, if_pos hrl]

/-- Branch evaluation: a call whose clamped target moved less than 0.5 mm
is counted as skipped and transmits nothing. -/
theorem send_position_change_suppressed (c : SMCCfg) (s : SMCRunState)
    (now x : ℚ) (hconn : s.connected = true)
    (hrl : ¬(now - s.lastCommandTime < 1 / c.commandRateHz))
    (hth : |smcClamp c x - s.lastPosition| < 1 / 2) :
    send_position c s now x = (true, { s with skipped := s.skipped + 1 }, []) := by
  simp only [send_position, hconn, Bool.not_true]
  rw [if_neg Bool.false_ne_true, if_neg hrl, if_pos hth]

/-- Branch evaluation: an accepted call commits the throttle state and
transmits the step-data block for the clamped target. -/
theorem send_position_accepted (c : SMCCfg) (s : SMCRunState) (now x : ℚ)
    (hconn : s.connected = true)
    (hrl : ¬(now - s.lastCommandTime < 1 / c.commandRateHz))
    (hth : ¬(|smcClamp c x - s.lastPosition| < 1 / 2)) :
    send_position c s now x =
      (true,
        { s with lastCommandTime := now, lastPosition := smcClamp c x,
                 sent := s.sent + 1 },
        smcSendPositionCommandOps c (smcClamp c x)) := by
  simp only [send_position, hconn, Bool.not_true]
  rw [if_neg Bool.false_ne_true, if_neg hrl, if_neg hth]

/-- Claim C5: with the driver Ready (connected, last accepted position in
range), a hardware write is transmitted only when both suppressions pass;
a call failing the rate limit or the 0.5 mm change threshold transmits
nothing, leaves the throttle state (last accepted time/position) unchanged
and still returns success; and a second call less than
`min_command_interval` after an accepted one is suppressed, so the pair
transmits exactly one hardware write. -/
theorem send_position_throttling (c : SMCCfg) (s : SMCRunState) (now x : ℚ)
    (hconn : s.connected = true)
    (hlo : c.minPositionMm ≤ s.lastPosition)
    (hhi : s.lastPosition ≤ c.maxPositionMm) :
    (now - s.lastCommandTime < 1 / c.commandRateHz →
      send_position c s now x = (true, { s with skipped := s.skipped + 1 }, [])) ∧
    (|x - s.lastPosition| < 1 / 2 →
      (send_position c s now x).1 = true ∧
      (send_position c s now x).2.2 = [] ∧
      (send_position c s now x).2.1.lastCommandTime = s.lastCommandTime ∧
      (send_position c s now x).2.1.lastPosition = s.lastPosition) ∧
    ((send_position c s now x).2.2 ≠ [] →
      1 / c.commandRateHz ≤ now - s.lastCommandTime ∧
      1 / 2 ≤ |x - s.lastPosition|) ∧
    (∀ now2 x2, 1 / c.commandRateHz ≤ now - s.lastCommandTime →
      1 / 2 ≤ |smcClamp c x - s.lastPosition| →
      now2 - now < 1 / c.commandRateHz →
      (send_position c s now x).2.2 =
        smcSendPositionCommandOps c (smcClamp c x) ∧
      (send_position c (send_position c s now x).2.1 now2 x2).2.2 = [] ∧
      (send_position c (send_position c s now x).2.1 now2 x2).2.1.sent =
        s.sent + 1) := by
  have hkey : |smcClamp c x - s.lastPosition| ≤ |x - s.lastPosition| := by
    unfold smcClamp
    exact abs_clamp_sub_le _ _ _ _ hlo hhi
  by_cases hrl : now - s.lastCommandTime < 1 / c.commandRateHz
  · have hA := send_position_rate_limited c s now x hconn hrl
    refine ⟨fun _ => hA, ?_, ?_, ?_⟩
    · intro _
      rw [hA]
      exact ⟨rfl, rfl, rfl, rfl⟩
    · intro hne
      rw [hA] at hne
      exact absurd rfl hne
    · intro now2 x2 h1 _ _
      linarith
  · by_cases hth : |smcClamp c x - s.lastPosition| < 1 / 2
    · have hB := send_position_change_suppressed c s now x hconn hrl hth
      refine ⟨fun h => absurd h hrl, ?_, ?_, ?_⟩
      · intro _
        rw [hB]
        exact ⟨rfl, rfl, rfl, rfl⟩
      · intro hne
        rw [hB] at hne
        exact absurd rfl hne
      · intro now2 x2 _ h2 _
        linarith
    · have hC := send_position_accepted c s now x hconn hrl hth
      refine ⟨fun h => absurd h hrl, ?_, ?_, ?_⟩
      · intro h2
        exact absurd (lt_of_le_of_lt hkey h2) hth
      · intro _
        exact ⟨not_lt.1 hrl, le_trans (not_lt.1 hth) hkey⟩
      · intro now2 x2 _ _ h3
        rw [hC]
        have h2c := send_position_rate_limited c
          { s with lastCommandTime := now, lastPosition := smcClamp c x,
                   sent := s.sent + 1 } now2 x2 hconn h3
        refine ⟨rfl, ?_, ?_⟩
        · show (send_position c
              { s with lastCommandTime := now, lastPosition := smcClamp c x,
                       sent := s.sent + 1 } now2 x2).2.2 = []
          rw [h2c]
        · show (send_position c
              { s with lastCommandTime := now, lastPosition := smcClamp c x,
                       sent := s.sent + 1 } now2 x2).2.1.sent = s.sent + 1
          rw [h2c]

/-- Witness for C5: default config, freshly initialized driver at center,
an accepted command to 500 mm at `t = 1`. -/
theorem send_position_throttling_witness :
    (smcReadyState smcDefaultCfg).connected = true ∧
    smcDefaultCfg.minPositionMm ≤ (smcReadyState smcDefaultCfg).lastPosition ∧
    (smcReadyState smcDefaultCfg).lastPosition ≤ smcDefaultCfg.maxPositionMm ∧
    ((1 : ℚ) - (smcReadyState smcDefaultCfg).lastCommandTime <
        1 / smcDefaultCfg.commandRateHz →
      send_position smcDefaultCfg (smcReadyState smcDefaultCfg) 1 500 =
        (true,
          { smcReadyState smcDefaultCfg with
              skipped := (smcReadyState smcDefaultCfg).skipped + 1 }, [])) :=
  ⟨rfl,
    by norm_num [smcDefaultCfg, smcReadyState, SMCCfg.minPositionMm],
    by norm_num [smcDefaultCfg, smcReadyState, SMCCfg.maxPositionMm],
    (send_position_throttling smcDefaultCfg (smcReadyState smcDefaultCfg) 1 500
      rfl
      (by norm_num [smcDefaultCfg, smcReadyState, SMCCfg.minPositionMm])
      (by norm_num [smcDefaultCfg, smcReadyState, SMCCfg.maxPositionMm])).1⟩

/-- Counterexample to claim C6: the v1 run-loop write
(`_send_position_command`, the fast path of `send_position`) does rewrite a
motion-profile register — its very first operation writes the movement-mode
register. -/
theorem send_position_command_profile_counterexample :
    BusOp.regWrite REG_MOVEMENT_MODE 1 ∈
      smcSendPositionCommandOps smcDefaultCfg 450 ∧
    isProfileWrite (BusOp.regWrite REG_MOVEMENT_MODE 1) = true := by
  constructor
  · simp [smcSendPositionCommandOps, smcMoveOps]
  · decide

/-- Claim C6 as amended: only the v2 driver has a position-only fast path —
`SMCDriverV2._move_to_fast` writes exactly the 32-bit position register and
the operation-start word and touches no motion-profile register, the
profile being written by `_setup_motion_parameters` and `_move_to_full`
during `connect`; the v1 driver's `_send_position_command` instead re-sends
the full step-data block (movement mode included) on every accepted
`send_position`. -/
theorem fast_path_write_sets (x : ℚ) :
    smcV2MoveToFastOps x =
      [BusOp.regWrite32 REG_POSITION (pyInt (x * 100)),
       BusOp.regWrite REG_OPERATION_START 0x0100] ∧
    (∀ op ∈ smcV2MoveToFastOps x, isProfileWrite op = false) ∧
    BusOp.regWrite REG_MOVEMENT_MODE 1 ∈ smcV2SetupParamsOps smcV2DefaultCfg ∧
    BusOp.regWrite REG_MOVEMENT_MODE 1 ∈
      smcV2MoveToFullOps smcV2DefaultCfg smcV2DefaultCfg.centerMm ∧
    (∃ op ∈ smcSendPositionCommandOps smcDefaultCfg x,
      isProfileWrite op = true) := by
  refine ⟨rfl, ?_, ?_, ?_, ?_⟩
  · intro op hop
    rcases List.mem_cons.1 hop with h | h
    · subst h
      rfl
    · rcases List.mem_singleton.1 h with rfl
      rfl
  · simp [smcV2SetupParamsOps]
  · simp [smcV2MoveToFullOps]
  · exact ⟨BusOp.regWrite REG_MOVEMENT_MODE 1,
      by simp [smcSendPositionCommandOps, smcMoveOps], by decide⟩

/-- Claim C1: in every initialize/connect run of either driver that
reaches homing completion, the bus trace around homing is: the SETUP coil
asserted, a run of SETON polls that fail, the poll that observes SETON
high, and then — as the very next field-bus operation, with no other coil
or register write interleaved — the write that de-asserts SETUP. -/
theorem homing_clears_setup (c1 : SMCCfg) (env1 : SMCInitEnv)
    (c2 : SMCv2Cfg) (env2 : SMCv2Env)
    (h1 : (waitForInput INPUT_SVRE true env1.svre).2 = true)
    (h2 : (waitForInput INPUT_SETON true env1.seton).2 = true)
    (h3 : (waitForInput INPUT_SVRE true env2.svre).2 = true)
    (h4 : (waitForInput INPUT_SETON true env2.seton).2 = true) :
    (∃ pre mids post, (smcInitTrace c1 env1 true).1 =
        pre ++ [BusOp.coilWrite COIL_SETUP true] ++ mids
          ++ [BusOp.inputRead INPUT_SETON true,
              BusOp.coilWrite COIL_SETUP false] ++ post ∧
        ∀ op ∈ mids, op = BusOp.inputRead INPUT_SETON false) ∧
    (∃ pre mids post, (smcV2ConnectTrace c2 env2).1 =
        pre ++ [BusOp.coilWrite COIL_SETUP true] ++ mids
          ++ [BusOp.inputRead INPUT_SETON true,
              BusOp.coilWrite COIL_SETUP false] ++ post ∧
        ∀ op ∈ mids, op = BusOp.inputRead INPUT_SETON false) := by
  obtain ⟨mids1, hm1, hall1⟩ := waitForInput_ok INPUT_SETON true env1.seton h2
  obtain ⟨mids2, hm2, hall2⟩ := waitForInput_ok INPUT_SETON true env2.seton h4
  constructor
  · refine ⟨[BusOp.coilWrite COIL_INPUT_INVALID true]
        ++ (BusOp.inputRead INPUT_ALARM env1.alarmOk ::
            (if env1.alarmOk then [] else resetPulseOps))
        ++ [BusOp.coilWrite COIL_SVON true]
        ++ (waitForInput INPUT_SVRE true env1.svre).1,
      mids1,
      [BusOp.regRead32 REG_CURRENT_POSITION] ++ smcCenterMoveOps c1 env1,
      ?_, fun op h => by simpa using hall1 op h⟩
    simp only [smcInitTrace, h1, h2, Bool.not_true, Bool.false_eq_true,
      if_false, if_true, hm1]
    simp [List.append_assoc]
  · refine ⟨[BusOp.coilWrite COIL_INPUT_INVALID true] ++ resetPulseOps
        ++ [BusOp.coilWrite COIL_SVON true]
        ++ (waitForInput INPUT_SVRE true env2.svre).1,
      mids2,
      resetPulseOps ++ smcV2SetupParamsOps c2
        ++ smcV2MoveToFullOps c2 c2.centerMm
        ++ (waitForInput INPUT_BUSY false env2.busy).1
        ++ [BusOp.regRead32 REG_CURRENT_POSITION],
      ?_, fun op h => by simpa using hall2 op h⟩
    simp only [smcV2ConnectTrace, h3, h4, Bool.not_true, Bool.false_eq_true,
      if_false, hm2]
    simp [List.append_assoc]

/-- Witness for C1: concrete poll streams in which the servo is ready at
once and homing completes on the second (v1) / first (v2) poll. -/
theorem homing_clears_setup_witness :
    (waitForInput INPUT_SVRE true [true]).2 = true ∧
    (waitForInput INPUT_SETON true [false, true]).2 = true ∧
    ((∃ pre mids post,
        (smcInitTrace smcDefaultCfg
            ⟨true, [true], [false, true], [false], [false], 450⟩ true).1 =
          pre ++ [BusOp.coilWrite COIL_SETUP true] ++ mids
            ++ [BusOp.inputRead INPUT_SETON true,
                BusOp.coilWrite COIL_SETUP false] ++ post ∧
          ∀ op ∈ mids, op = BusOp.inputRead INPUT_SETON false) ∧
      (∃ pre mids post,
        (smcV2ConnectTrace smcV2DefaultCfg ⟨[true], [false, true], [false]⟩).1 =
          pre ++ [BusOp.coilWrite COIL_SETUP true] ++ mids
            ++ [BusOp.inputRead INPUT_SETON true,
                BusOp.coilWrite COIL_SETUP false] ++ post ∧
          ∀ op ∈ mids, op = BusOp.inputRead INPUT_SETON false)) :=
  ⟨by decide, by decide,
    homing_clears_setup smcDefaultCfg
      ⟨true, [true], [false, true], [false], [false], 450⟩
      smcV2DefaultCfg ⟨[true], [false, true], [false]⟩
      (by decide) (by decide) (by decide) (by decide)⟩

/-- Witness for the amended C6 at the commanded position 450 mm. -/
theorem fast_path_write_sets_witness :
    smcV2MoveToFastOps 450 =
      [BusOp.regWrite32 REG_POSITION (pyInt (450 * 100)),
       BusOp.regWrite REG_OPERATION_START 0x0100] ∧
    (∀ op ∈ smcV2MoveToFastOps 450, isProfileWrite op = false) ∧
    BusOp.regWrite REG_MOVEMENT_MODE 1 ∈ smcV2SetupParamsOps smcV2DefaultCfg ∧
    BusOp.regWrite REG_MOVEMENT_MODE 1 ∈
      smcV2MoveToFullOps smcV2DefaultCfg smcV2DefaultCfg.centerMm ∧
    (∃ op ∈ smcSendPositionCommandOps smcDefaultCfg 450,
      isProfileWrite op = true) :=
  fast_path_write_sets 450

/-! ## Claim theorems: motion algorithm -/

/-- The value stored as the filter's previous input by one `calculate`
call — i.e. the value fed into the washout filter stage — is the
deadbanded input. -/
theorem calculate_prevInput {K : Type} [LinearOrderedField K]
    (c : MotionCfg K) (s : MotionState K) (t : Telemetry K) :
    (calculate c s t).2.filter.prevInput =
      if |extract_input c t - s.lastInput| < c.deadband then s.lastInput
      else extract_input c t := rfl

/-- The held input after one `calculate` call equals the deadbanded
input. -/
theorem calculate_lastInput {K : Type} [LinearOrderedField K]
    (c : MotionCfg K) (s : MotionState K) (t : Telemetry K) :
    (calculate c s t).2.lastInput =
      if |extract_input c t - s.lastInput| < c.deadband then s.lastInput
      else extract_input c t := rfl

/-- Counterexample to claim C7: with the default config (deadband 0.05 g)
and a freshly constructed `MotionAlgorithm`, feed +1 g and then 0.03 g of
surge.  The second input has magnitude below the deadband, yet the value
fed into the washout filter is 0.03, not 0 — the code deadbands the change
since the previous input, which is 0.97 g here. -/
theorem deadband_magnitude_counterexample :
    |extract_input motionDefaultCfg ⟨0, -(3 / 100), 1, 0, 0, 0⟩| <
      motionDefaultCfg.deadband ∧
    (calculate motionDefaultCfg
        (calculate motionDefaultCfg motionInitState ⟨0, -1, 1, 0, 0, 0⟩).2
        ⟨0, -(3 / 100), 1, 0, 0, 0⟩).2.filter.prevInput ≠ 0 := by
  have h1 : (calculate motionDefaultCfg motionInitState
      ⟨0, -1, 1, 0, 0, 0⟩).2.lastInput = 1 := by
    rw [calculate_lastInput]
    norm_num [extract_input, motionDefaultCfg, motionInitState]
  constructor
  · show |extract_input motionDefaultCfg _| < motionDefaultCfg.deadband
    have he : extract_input motionDefaultCfg
        (⟨0, -(3 / 100), 1, 0, 0, 0⟩ : Telemetry ℝ) = 3 / 100 := by
      norm_num [extract_input, motionDefaultCfg]
    rw [he, abs_of_nonneg (by norm_num : (0 : ℝ) ≤ 3 / 100)]
    norm_num [motionDefaultCfg]
  · rw [calculate_prevInput, h1]
    have he : extract_input motionDefaultCfg
        (⟨0, -(3 / 100), 1, 0, 0, 0⟩ : Telemetry ℝ) = 3 / 100 := by
      norm_num [extract_input, motionDefaultCfg]
    rw [he]
    rw [if_neg]
    · norm_num
    · rw [show |(3 : ℝ) / 100 - 1| = 97 / 100 by
        rw [abs_of_nonpos (by norm_num : (3 : ℝ) / 100 - 1 ≤ 0)]
        norm_num]
      norm_num [motionDefaultCfg]

/-- Claim C7 as amended: the deadband of `MotionAlgorithm.calculate` (and
of `MotionAlgorithmV2.calculate`) tests the change since the previously
held input, not the input's magnitude: when `|g - last| < deadband` the
value fed into the filter stage is the held input (and the smoothing stage
of v2 likewise consumes the held g-force), otherwise it is `g` itself;
the original claim's conclusion holds exactly when the held input is 0. -/
theorem deadband_holds_previous {K : Type} [LinearOrderedField K]
    (c : MotionCfg K) (s : MotionState K) (t : Telemetry K)
    (c2 : AlgoV2Cfg K) (s2 : AlgoV2State K) :
    (|extract_input c t - s.lastInput| < c.deadband →
      (calculate c s t).2.filter.prevInput = s.lastInput) ∧
    (c.deadband ≤ |extract_input c t - s.lastInput| →
      (calculate c s t).2.filter.prevInput = extract_input c t) ∧
    (s.lastInput = 0 → |extract_input c t| < c.deadband →
      (calculate c s t).2.filter.prevInput = 0) ∧
    (|v2_get_dimension_value c2 t - s2.lastGForce| < c2.threshold →
      (v2_calculate c2 s2 t).2.lastGForce = s2.lastGForce ∧
      (v2_calculate c2 s2 t).2.smoothedG =
        c2.smoothing * s2.smoothedG + (1 - c2.smoothing) * s2.lastGForce) := by
  refine ⟨?_, ?_, ?_, ?_⟩
  · intro h
    rw [calculate_prevInput, if_pos h]
  · intro h
    rw [calculate_prevInput, if_neg (not_lt.2 h)]
  · intro h0 habs
    rw [calculate_prevInput, h0, sub_zero, if_pos habs]
  · intro h
    constructor
    · show (if |v2_get_dimension_value c2 t - s2.lastGForce| < c2.threshold
          then s2.lastGForce else v2_get_dimension_value c2 t) = s2.lastGForce
      rw [if_pos h]
    · show c2.smoothing * s2.smoothedG + (1 - c2.smoothing) *
          (if |v2_get_dimension_value c2 t - s2.lastGForce| < c2.threshold
            then s2.lastGForce else v2_get_dimension_value c2 t) = _
      rw [if_pos h]

/-- Witness for the amended C7: rational instance, held input 1, new input
0.03 with deadband 0.05 (change 0.97 not suppressed). -/
theorem deadband_holds_previous_witness :
    ((⟨MotionDim.SWAY, 1, 100, 1/20, 500, 900, 450, 50, 30⟩ :
        MotionCfg ℚ).deadband ≤
      |extract_input
          (⟨MotionDim.SWAY, 1, 100, 1/20, 500, 900, 450, 50, 30⟩ : MotionCfg ℚ)
          (⟨3/100, 0, 1, 0, 0, 0⟩ : Telemetry ℚ) -
        (⟨⟨1/2, 1, 0⟩, 450, 1, 1⟩ : MotionState ℚ).lastInput|) ∧
    (calculate
        (⟨MotionDim.SWAY, 1, 100, 1/20, 500, 900, 450, 50, 30⟩ : MotionCfg ℚ)
        (⟨⟨1/2, 1, 0⟩, 450, 1, 1⟩ : MotionState ℚ)
        (⟨3/100, 0, 1, 0, 0, 0⟩ : Telemetry ℚ)).2.filter.prevInput =
      extract_input
        (⟨MotionDim.SWAY, 1, 100, 1/20, 500, 900, 450, 50, 30⟩ : MotionCfg ℚ)
        (⟨3/100, 0, 1, 0, 0, 0⟩ : Telemetry ℚ) := by
  have habs : |(3 : ℚ)/100 - 1| = 97/100 := by
    rw [abs_of_nonpos (by norm_num : (3 : ℚ)/100 - 1 ≤ 0)]
    norm_num
  refine ⟨?_, (deadband_holds_previous
      (⟨MotionDim.SWAY, 1, 100, 1/20, 500, 900, 450, 50, 30⟩ : MotionCfg ℚ)
      (⟨⟨1/2, 1, 0⟩, 450, 1, 1⟩ : MotionState ℚ)
      (⟨3/100, 0, 1, 0, 0, 0⟩ : Telemetry ℚ)
      (⟨DimV2.surge, 80, 0, 1/20, 350, 50, 850⟩ : AlgoV2Cfg ℚ)
      (⟨0, 0⟩ : AlgoV2State ℚ)).2.1 ?_⟩ <;>
    · show (1 : ℚ)/20 ≤ |(3 : ℚ)/100 - 1|
      rw [habs]
      norm_num

/-- One `calculate` call moves the output at most `slew_rate / update_rate`
away from the previous output, lands inside the soft limits, and commits
the returned value as the new current position. -/
theorem calculate_step_bound {K : Type} [LinearOrderedField K]
    (c : MotionCfg K) (s : MotionState K) (t : Telemetry K)
    (hrate : 0 < c.updateRateHz) (hslew : 0 ≤ c.slewRateLimit)
    (hmin : c.minPositionMm ≤ s.currentPosition)
    (hmax : s.currentPosition ≤ c.maxPositionMm) :
    |(calculate c s t).1 - s.currentPosition| ≤
      c.slewRateLimit / c.updateRateHz ∧
    c.minPositionMm ≤ (calculate c s t).1 ∧
    (calculate c s t).1 ≤ c.maxPositionMm ∧
    (calculate c s t).2.currentPosition = (calculate c s t).1 := by
  have hbound : ∀ cur target : K,
      |apply_slew_rate c cur target - cur| ≤ c.slewRateLimit / c.updateRateHz := by
    intro cur target
    unfold apply_slew_rate copysign
    rw [add_sub_cancel_left]
    have hdiv : c.slewRateLimit * (1 / c.updateRateHz) =
        c.slewRateLimit / c.updateRateHz := by
      rw [mul_one_div]
    have hmx0 : 0 ≤ c.slewRateLimit * (1 / c.updateRateHz) :=
      mul_nonneg hslew (le_of_lt (one_div_pos.mpr hrate))
    split_ifs with h1 h2
    · rw [abs_neg, abs_abs, abs_of_nonneg hmx0, hdiv]
    · rw [abs_abs, abs_of_nonneg hmx0, hdiv]
    · rw [← hdiv]
      exact not_lt.1 h1
  have hclamp : ∀ y : K,
      |clamp_position c y - s.currentPosition| ≤ |y - s.currentPosition| := by
    intro y
    unfold clamp_position
    exact abs_clamp_sub_le _ _ _ _ hmin hmax
  have hout : (calculate c s t).1 =
      clamp_position c (apply_slew_rate c s.currentPosition
        (c.centerMm + (s.filter.update (if |extract_input c t - s.lastInput| <
          c.deadband then s.lastInput else extract_input c t)).1 * c.gain)) := rfl
  refine ⟨?_, ?_, ?_, rfl⟩
  · rw [hout]
    exact le_trans (hclamp _) (hbound _ _)
  · rw [hout]
    unfold clamp_position
    exact le_max_left _ _
  · rw [hout]
    unfold clamp_position
    exact max_le (le_trans hmin hmax) (min_le_left _ _)

/-- Invariant-carrying induction for the run: the output sequence is
slew-chained and its first element stays within one step of the initial
position. -/
theorem runCalculate_chain_aux {K : Type} [LinearOrderedField K]
    (c : MotionCfg K) (hrate : 0 < c.updateRateHz)
    (hslew : 0 ≤ c.slewRateLimit) (ts : List (Telemetry K)) :
    ∀ s : MotionState K, c.minPositionMm ≤ s.currentPosition →
      s.currentPosition ≤ c.maxPositionMm →
      List.Chain' (fun a b => |b - a| ≤ c.slewRateLimit / c.updateRateHz)
        (runCalculate c s ts).1 ∧
      (∀ z ∈ ((runCalculate c s ts).1).head?,
        |z - s.currentPosition| ≤ c.slewRateLimit / c.updateRateHz) := by
  induction ts with
  | nil =>
      intro s _ _
      exact ⟨List.chain'_nil, by simp [runCalculate]⟩
  | cons t ts ih =>
      intro s hmin hmax
      obtain ⟨hstep, hlo, hhi, hcommit⟩ :=
        calculate_step_bound c s t hrate hslew hmin hmax
      have hlo' : c.minPositionMm ≤ (calculate c s t).2.currentPosition := by
        rw [hcommit]; exact hlo
      have hhi' : (calculate c s t).2.currentPosition ≤ c.maxPositionMm := by
        rw [hcommit]; exact hhi
      obtain ⟨ihchain, ihhead⟩ := ih (calculate c s t).2 hlo' hhi'
      have hrun : (runCalculate c s (t :: ts)).1 =
          (calculate c s t).1 :: (runCalculate c (calculate c s t).2 ts).1 := rfl
      rw [hrun]
      refine ⟨List.chain'_cons'.2 ⟨?_, ihchain⟩, ?_⟩
      · intro y hy
        have := ihhead y hy
        rw [hcommit] at this
        exact this
      · intro z hz
        have hz' : (calculate c s t).1 = z := by
          simpa using hz
        rw [← hz']
        exact hstep

/-- Claim C9: over any instance of the motion algorithm (any filter
coefficient, hence in particular the freshly constructed or reset
real-valued instance, whose current position starts at the in-range center)
with positive update rate and nonnegative slew limit, every pair of
consecutive positions returned by `calculate` differs by at most
`slew_rate_limit / update_rate_hz`, the final soft clamp included. -/
theorem motion_outputs_slew_bounded {K : Type} [LinearOrderedField K]
    (c : MotionCfg K) (s : MotionState K) (ts : List (Telemetry K))
    (hrate : 0 < c.updateRateHz) (hslew : 0 ≤ c.slewRateLimit)
    (hmin : c.minPositionMm ≤ s.currentPosition)
    (hmax : s.currentPosition ≤ c.maxPositionMm) :
    List.Chain' (fun a b => |b - a| ≤ c.slewRateLimit / c.updateRateHz)
      (runCalculate c s ts).1 :=
  (runCalculate_chain_aux c hrate hslew ts s hmin hmax).1

/-- Witness for C9: rational instance of the default config, fresh state at
center, a two-sample braking input. -/
theorem motion_outputs_slew_bounded_witness :
    (0 : ℚ) <
      (⟨MotionDim.SURGE, 1, 100, 1/20, 500, 900, 450, 50, 30⟩ :
        MotionCfg ℚ).updateRateHz ∧
    (0 : ℚ) ≤
      (⟨MotionDim.SURGE, 1, 100, 1/20, 500, 900, 450, 50, 30⟩ :
        MotionCfg ℚ).slewRateLimit ∧
    (⟨MotionDim.SURGE, 1, 100, 1/20, 500, 900, 450, 50, 30⟩ :
        MotionCfg ℚ).minPositionMm ≤
      (⟨⟨1/2, 0, 0⟩, 450, 0, 0⟩ : MotionState ℚ).currentPosition ∧
    (⟨⟨1/2, 0, 0⟩, 450, 0, 0⟩ : MotionState ℚ).currentPosition ≤
      (⟨MotionDim.SURGE, 1, 100, 1/20, 500, 900, 450, 50, 30⟩ :
        MotionCfg ℚ).maxPositionMm ∧
    List.Chain'
      (fun a b => |b - a| ≤
        (⟨MotionDim.SURGE, 1, 100, 1/20, 500, 900, 450, 50, 30⟩ :
          MotionCfg ℚ).slewRateLimit /
        (⟨MotionDim.SURGE, 1, 100, 1/20, 500, 900, 450, 50, 30⟩ :
          MotionCfg ℚ).updateRateHz)
      (runCalculate
        (⟨MotionDim.SURGE, 1, 100, 1/20, 500, 900, 450, 50, 30⟩ : MotionCfg ℚ)
        (⟨⟨1/2, 0, 0⟩, 450, 0, 0⟩ : MotionState ℚ)
        [⟨0, -2, 1, 0, 0, 0⟩, ⟨0, -2, 1, 0, 0, 0⟩]).1 :=
  ⟨by norm_num, by norm_num,
    by norm_num [MotionCfg.minPositionMm],
    by norm_num [MotionCfg.maxPositionMm],
    motion_outputs_slew_bounded
      (⟨MotionDim.SURGE, 1, 100, 1/20, 500, 900, 450, 50, 30⟩ : MotionCfg ℚ)
      (⟨⟨1/2, 0, 0⟩, 450, 0, 0⟩ : MotionState ℚ)
      [⟨0, -2, 1, 0, 0, 0⟩, ⟨0, -2, 1, 0, 0, 0⟩]
      (by norm_num) (by norm_num)
      (by norm_num [MotionCfg.minPositionMm])
      (by norm_num [MotionCfg.maxPositionMm])⟩

/-! ## Claim theorems: onset filter (C8) -/

/-- At the default configuration (cutoff 1 Hz, 30 Hz sample rate), the
first-order washout coefficient `alpha = tau / (tau + dt)` is below 0.83. -/
theorem hpAlpha_default_lt : hpAlpha 1 30 < 83 / 100 := by
  have hπ : (3.1415 : ℝ) < Real.pi := Real.pi_gt_d4
  have hπpos : (0 : ℝ) < Real.pi := Real.pi_pos
  have ha : (0 : ℝ) < 1 / (2 * Real.pi * 1) := by positivity
  have haπ : (1 / (2 * Real.pi * 1)) * (2 * Real.pi) = 1 := by
    field_simp
  simp only [hpAlpha]
  rw [div_lt_iff₀ (by positivity)]
  nlinarith [mul_pos ha (sub_pos.2 hπ), haπ, ha]

/-- At the default configuration, the Butterworth biquad's `b0`
coefficient exceeds 0.86. -/
theorem butterworth_b0_default_gt : 86 / 100 < (mkButterworthHP 1 30).b0 := by
  have hπpos : (0 : ℝ) < Real.pi := Real.pi_pos
  have hπlt : Real.pi < 3.1416 := Real.pi_lt_d4
  set ω : ℝ := 2 * Real.pi * 1 / 30 with hω
  have hωpos : 0 < ω := by
    rw [hω]
    positivity
  have hωlt : ω < 20944 / 100000 := by
    rw [hω]
    nlinarith [hπlt]
  have hωleπ : ω ≤ Real.pi := by
    rw [hω]
    nlinarith [hπpos]
  have hs0 : 0 ≤ Real.sin ω :=
    Real.sin_nonneg_of_nonneg_of_le_pi (le_of_lt hωpos) hωleπ
  have hsle : Real.sin ω ≤ ω := Real.sin_le (le_of_lt hωpos)
  have hhalf0 : 0 ≤ ω / 2 := by linarith
  have hs2le : Real.sin (ω / 2) ≤ ω / 2 := Real.sin_le hhalf0
  have hs20 : 0 ≤ Real.sin (ω / 2) :=
    Real.sin_nonneg_of_nonneg_of_le_pi hhalf0 (by linarith)
  have hcos_id : Real.cos ω = 1 - 2 * Real.sin (ω / 2) ^ 2 := by
    have h1 := Real.cos_two_mul (ω / 2)
    have h2 := Real.sin_sq_add_cos_sq (ω / 2)
    have h3 : 2 * (ω / 2) = ω := by ring
    rw [h3] at h1
    nlinarith [h1, h2]
  have hsq : Real.sin (ω / 2) ^ 2 ≤ (ω / 2) ^ 2 := by
    nlinarith [hs2le, hs20]
  have hcosge : 1 - ω ^ 2 / 2 ≤ Real.cos ω := by
    rw [hcos_id]
    nlinarith [hsq]
  have hb0 : (mkButterworthHP 1 30).b0 =
      ((1 + Real.cos ω) / 2) / (1 + Real.sin ω / (2 * (707 / 1000))) := by
    simp only [mkButterworthHP]
  rw [hb0]
  have hden : 0 < 1 + Real.sin ω / (2 * (707 / 1000)) := by
    have : 0 ≤ Real.sin ω / (2 * (707 / 1000)) :=
      div_nonneg hs0 (by norm_num)
    linarith
  rw [lt_div_iff₀ hden]
  have hω2 : ω ^ 2 < (20944 / 100000) ^ 2 := by
    nlinarith [hωpos, hωlt]
  have h1 : 1 - ω ^ 2 / 4 ≤ (1 + Real.cos ω) / 2 := by linarith
  have h2 : Real.sin ω / (2 * (707 / 1000)) ≤ ω * (500 / 707) := by
    have h2' : Real.sin ω / (2 * (707 / 1000)) =
        Real.sin ω * (500 / 707) := by
      ring
    rw [h2']
    exact mul_le_mul_of_nonneg_right hsle (by norm_num)
  have h3 : 86 / 100 * (1 + Real.sin ω / (2 * (707 / 1000))) ≤
      86 / 100 * (1 + ω * (500 / 707)) := by nlinarith [h2]
  have h4 : 86 / 100 * (1 + ω * (500 / 707)) < 1 - ω ^ 2 / 4 := by
    nlinarith [hωlt, hω2]
  linarith [h1, h3, h4]

/-- One sample through the fresh default first-order washout: the output
is the filter coefficient itself. -/
theorem hpFilter_update_one :
    ((mkHPFilter (1 : ℝ) 30).update 1).1 = hpAlpha 1 30 := by
  simp [mkHPFilter, HPFilter.update]

/-- One sample through the fresh default Butterworth biquad: the output is
the `b0` coefficient. -/
theorem butterworth_process_one :
    ((mkButterworthHP (1 : ℝ) 30).process 1).1 = (mkButterworthHP 1 30).b0 := by
  have hx1 : (mkButterworthHP (1 : ℝ) 30).x1 = 0 := rfl
  have hx2 : (mkButterworthHP (1 : ℝ) 30).x2 = 0 := rfl
  have hy1 : (mkButterworthHP (1 : ℝ) 30).y1 = 0 := rfl
  have hy2 : (mkButterworthHP (1 : ℝ) 30).y2 = 0 := rfl
  simp [Biquad.process, hx1, hx2, hy1, hy2]

/-- Counterexample to claim C8: the onset filter constructed and used by
`MotionAlgorithm` (first-order, `alpha = tau/(tau+dt)`) and the 2nd-order
Butterworth high-pass biquad of `filters.py` already disagree on the
one-sample input sequence `[1]` at the default cutoff (1 Hz) and sample
rate (30 Hz): the former outputs about 0.827, the latter about 0.862. -/
theorem onset_filter_not_butterworth :
    ((mkHPFilter (1 : ℝ) 30).update 1).1 ≠
      ((mkButterworthHP (1 : ℝ) 30).process 1).1 := by
  rw [hpFilter_update_one, butterworth_process_one]
  exact ne_of_lt (lt_trans hpAlpha_default_lt
    (lt_trans (by norm_num : (83 : ℝ) / 100 < 86 / 100)
      butterworth_b0_default_gt))

/-- Claim C8 as amended: the onset section used by
`MotionAlgorithm.calculate` is the FIRST-order washout
`y[n] = alpha * (y[n-1] + x[n] - x[n-1])` — for every input sequence its
outputs equal that reference recurrence — and it is not equivalent to the
2nd-order Butterworth biquad of `filters.py`, whose output is already
strictly larger on the one-sample sequence `[1]` at the default
configuration. -/
theorem onset_filter_first_order (f : HPFilter ℝ) (xs : List ℝ) :
    (runHPFilter f xs).1 =
      foWashoutOutputs f.alpha f.prevInput f.prevOutput xs ∧
    ((mkHPFilter (1 : ℝ) 30).update 1).1 <
      ((mkButterworthHP (1 : ℝ) 30).process 1).1 := by
  constructor
  · induction xs generalizing f with
    | nil => rfl
    | cons x xs ih =>
        simp only [runHPFilter, foWashoutOutputs, HPFilter.update]
        rw [ih]
  · rw [hpFilter_update_one, butterworth_process_one]
    exact lt_trans hpAlpha_default_lt
      (lt_trans (by norm_num : (83 : ℝ) / 100 < 86 / 100)
        butterworth_b0_default_gt)

